import Mathlib

/-
Verification development for fortrunner (src/fortrunner/follow.py), a static
flow tracer for Fortran-like programs.  The Python source is shallowly
embedded: pure fragments become Lean functions, Python runtime failures
(AttributeError, NameError, TypeError, raise) become `Except` errors, and
object attributes that may be absent become `Option` fields.
-/

namespace FR

/-- Python runtime failures raised by the code under analysis. -/
inductive PyErr
  | nameError
  | attributeError
  | typeError
  | exception (msg : String)
  deriving DecidableEq, Repr

/-- A Python value stored in an attribute: the code stores either a string
(the statement text) or a bool (LoopJump is constructed with True/False). -/
inductive PyVal
  | str (s : String)
  | bool (b : Bool)
  deriving DecidableEq, Repr

/-! ## Python string primitives

The Python string operations the source uses, embedded at the character-list
level of `String.data`. -/

/-- Python's `\s` / str.strip whitespace class: space, tab, newline,
carriage return, vertical tab, form feed. -/
def pyIsSpace (c : Char) : Bool :=
  c = ' ' || c = '\t' || c = '\n' || c = '\r' || c = '\x0b' || c = '\x0c'

/-- Python `s.strip()`: remove leading and trailing whitespace. -/
def pyStrip (s : String) : String :=
  String.mk (((s.data.dropWhile pyIsSpace).reverse.dropWhile pyIsSpace).reverse)

/-- Python `s.lower()`: lowercase every character. -/
def pyLower (s : String) : String :=
  String.mk (s.data.map Char.toLower)

/-- Python `line.split("!")[0]`: the prefix of the line before its first
exclamation mark (the whole line when none occurs). -/
def takeBang (s : String) : String :=
  String.mk (s.data.takeWhile (fun c => c ≠ '!'))

/-- Python `line.endswith("&")`: the last character is the continuation
marker. -/
def endsWithAmp (s : String) : Bool :=
  s.data.getLast? == some '&'

/-- Python `line[:-1]`: the string without its last character. -/
def dropLastChar (s : String) : String :=
  String.mk s.data.dropLast

/-- Python `s.startswith(p)`. -/
def strStarts (s p : String) : Bool :=
  p.data.isPrefixOf s.data

/-! ## The Event class hierarchy (follow.py lines 11-90)

Python classes `Event`, `Use`, `Block`, `EndOfBlock`, `LoopJump`, `Jump`.
An instance is modelled as a record of optional attributes plus a class tag;
an attribute that a constructor never sets is `none`, and reading it raises
AttributeError. -/

inductive EventClass
  | event
  | useEvt
  | block
  | endOfBlock
  | loopJump
  | jump
  deriving DecidableEq, Repr

/-- JumpTarget = Union[Call, Goto, LoopJump] (follow.py line 83).  A LoopJump
used as a target is an Event-subclass instance, represented by its fields. -/
inductive JumpTarget
  | call (target_name : String)
  | goto (label_name : String)
  | loopJump (statement : Option PyVal) (leave : Option Bool)
  deriving DecidableEq, Repr

structure Event where
  cls : EventClass
  statement : Option PyVal := none
  modname : Option String := none
  finite : Option Bool := none
  leave : Option Bool := none
  target : Option JumpTarget := none
  deriving DecidableEq, Repr

/-- Event.__init__ (lines 27-31): stores the argument in self.statement. -/
def Event.new (statement : PyVal) : Event :=
  { cls := EventClass.event, statement := some statement }

/-- Use.__init__ (lines 40-42): calls super().__init__ then stores modname. -/
def Use.new (statement : PyVal) (modname : String) : Event :=
  { cls := EventClass.useEvt, statement := some statement, modname := some modname }

/-- Block.__init__ (lines 45-52): calls super().__init__ then stores finite. -/
def Block.new (statement : PyVal) (finite : Bool) : Event :=
  { cls := EventClass.block, statement := some statement, finite := some finite }

/-- EndOfBlock.__init__ (lines 55-60): its body is only a docstring.  It does
not call super().__init__, so the statement argument is discarded and no
attribute at all is set on the new instance. -/
def EndOfBlock.new (_statement : PyVal) : Event :=
  { cls := EventClass.endOfBlock }

/-- LoopJump (lines 63-70) defines a method named __ini__, not __init__, so
constructing LoopJump(x) runs the inherited Event.__init__, which stores x in
self.statement.  Nothing sets a leave attribute. -/
def LoopJump.new (x : PyVal) : Event :=
  { cls := EventClass.loopJump, statement := some x }

/-- The misspelled LoopJump.__ini__ method itself (lines 69-70): were it ever
called explicitly it would set self.leave.  No code calls it. -/
def LoopJump.ini (self : Event) (leave : Bool) : Event :=
  { self with leave := some leave }

/-- Jump.__init__ (lines 86-89). -/
def Jump.new (statement : PyVal) (target : JumpTarget) : Event :=
  { cls := EventClass.jump, statement := some statement, target := some target }

/-- str(type(self)) for each class, as Python would render it. -/
def EventClass.typeStr : EventClass → String
  | EventClass.event => "<class 'follow.Event'>"
  | EventClass.useEvt => "<class 'follow.Use'>"
  | EventClass.block => "<class 'follow.Block'>"
  | EventClass.endOfBlock => "<class 'follow.EndOfBlock'>"
  | EventClass.loopJump => "<class 'follow.LoopJump'>"
  | EventClass.jump => "<class 'follow.Jump'>"

/-- Event.__str__ (lines 33-34): `self.statement + " |=| " + str(type(self))`.
Reading a missing statement attribute raises AttributeError; concatenating a
non-string statement would raise TypeError. -/
def Event.toStr (e : Event) : Except PyErr String :=
  match e.statement with
  | none => Except.error PyErr.attributeError
  | some (PyVal.str s) => Except.ok (s ++ " |=| " ++ e.cls.typeStr)
  | some (PyVal.bool _) => Except.error PyErr.typeError

/-! ## The statement classifier interpret_statement (follow.py lines 92-132)

The body first rebinds `statement = statement.lower().strip()`.  The very
next operation evaluates `re.searchiter(...)`: the `re` module has no
attribute `searchiter` (the author presumably meant `finditer`), so the first
`next()` on the generator raises AttributeError before any event is yielded.
(Every later `re.search` call in the body is also missing its string
argument, one regex has an unbalanced parenthesis, and the final `use` match
references an undefined name `line`; none of those lines is ever reached.) -/
def interpret_statement (statement : String) (func_names : List String) : Except PyErr (List Event) :=
  let _normalized := pyStrip (pyLower statement)
  let _ := func_names
  Except.error PyErr.attributeError

/-! ## The statement reconstructor iter_statements (follow.py lines 135-152) -/

/-- One line of iter_statements preprocessing: `line.split("!")[0].strip()`. -/
def cleanLine (l : String) : String :=
  pyStrip (takeBang l)

/-- Loop body and final yield of iter_statements, with the accumulation
buffer made explicit.  A line whose cleaned text ends in `&` has the marker
dropped (`line[:-1]`) and is appended without emitting; otherwise the buffer
plus the line is emitted and the buffer resets.  After the loop the code
executes an unconditional `yield buffer`. -/
def iterStatementsAux (buffer : String) : List String → List String
  | [] => [buffer]
  | l :: ls =>
    let line := cleanLine l
    if endsWithAmp line then iterStatementsAux (buffer ++ dropLastChar line) ls
    else (buffer ++ line) :: iterStatementsAux "" ls

/-- iter_statements (follow.py lines 135-152). -/
def iter_statements (content : List String) : List String :=
  iterStatementsAux "" content

/-- Follows the spec's words (section 8, first testable property): the number
of non-continued logical lines, i.e. lines whose comment-stripped, trimmed
text does not end with the continuation marker. -/
def nonContinuedLineCount (content : List String) : Nat :=
  (content.filter (fun l => !endsWithAmp (cleanLine l))).length

/-- The statement text formed by a run of continuation lines: each line's
cleaned text with its trailing `&` removed, concatenated in order. -/
def joinedContinuations (cs : List String) : String :=
  cs.foldr (fun c acc => dropLastChar (cleanLine c) ++ acc) ""

/-! ## The routine catalog builder collect_routines (follow.py lines 155-201)

The Python function reads the file into `lines` and then works purely on
that list; the embedding starts from the list of lines.  Regular expressions
are embedded by their matching behaviour on the already lowercased, stripped
line.  Note the source writes the character class `[A-z0-9_]` (also with
parentheses added for function prefixes): `A-z` is the ASCII span from `A` to
`z`, which contains all letters, the underscore and the four punctuation
characters between `Z` and `a`; the embedding keeps that exact span. -/

/-- The regex class `[0-9A-z_]` of the program/module/subroutine/function
name patterns (`_` lies inside the `A-z` span). -/
def azCls (c : Char) : Bool :=
  ('A' ≤ c && c ≤ 'z') || ('0' ≤ c && c ≤ '9')

/-- The regex class `[A-z0-9_()]` of the optional function prefix token. -/
def fnCls (c : Char) : Bool :=
  azCls c || c = '(' || c = ')'

/-- Matcher for an anchored pattern `^<kw>\s+(<cls>+)`: the keyword literally,
then at least one whitespace character, then a maximal nonempty run of class
characters, returned as the captured name.  (Backtracking cannot help the
regex here: class characters are never whitespace, so the maximal-munch
reading is exact.) -/
def matchKeywordName (kw : List Char) (cls : Char → Bool) (l : List Char) : Option String :=
  if kw.isPrefixOf l then
    let r1 := l.drop kw.length
    let r2 := r1.dropWhile pyIsSpace
    if r2.length < r1.length then
      let name := r2.takeWhile cls
      if name.isEmpty then none else some (String.mk name)
    else none
  else none

/-- `re.search(r"^program\s+([0-9A-z_]+)", line)` (line 170). -/
def matchProgram (line : String) : Option String :=
  matchKeywordName "program".data azCls line.data

/-- `re.search(r"^module\s+([0-9A-z_]+)", line)` (line 176). -/
def matchModule (line : String) : Option String :=
  matchKeywordName "module".data azCls line.data

/-- `re.search(r"^subroutine\s+([A-z0-9_]+)", line)` (line 188). -/
def matchSubroutine (line : String) : Option String :=
  matchKeywordName "subroutine".data azCls line.data

/-- `re.search(r"^([A-z0-9_()]+\s+)?function\s+([A-z0-9_]+)", line)`
(line 192), group 2.  The greedy optional prefix — one token of prefix-class
characters followed by whitespace — is tried first; shorter backtrackings of
the token or the whitespace run cannot succeed because the classes are
disjoint from whitespace, so after the one-token attempt the regex falls
back to matching `function` at the start of the line. -/
def matchFunctionData (l : List Char) : Option String :=
  let r1 := l.dropWhile fnCls
  let r2 := r1.dropWhile pyIsSpace
  let core := matchKeywordName "function".data azCls l
  if r1.length < l.length && r2.length < r1.length then
    match matchKeywordName "function".data azCls r2 with
    | some n => some n
    | none => core
  else core

def matchFunction (line : String) : Option String :=
  matchFunctionData line.data

/-- What may follow the literal `end` in the closing-line pattern
`^end(\s+(subroutine|function))?$`: nothing at all, or at least one
whitespace character and then exactly `subroutine` or `function`. -/
def endTail (r : List Char) : Bool :=
  r.isEmpty ||
    (let d := r.dropWhile pyIsSpace
     d.length < r.length && (d = "subroutine".data || d = "function".data))

/-- `re.match(r"^end(\s+(subroutine|function))?$", line)` (line 198), as a
Boolean: the line is exactly `end`, or `end` followed by whitespace and then
exactly `subroutine` or `function`. -/
def isEndLine (line : String) : Bool :=
  "end".data.isPrefixOf line.data && endTail (line.data.drop 3)

/-- Per-line preprocessing used throughout collect_routines:
`line.split("!")[0].lower().strip()`. -/
def cleanLower (l : String) : String :=
  pyStrip (pyLower (takeBang l))

/-- The header match attempted by one iter_routines iteration: first the
subroutine pattern, and only if it fails, the function pattern (source lines
188-196). -/
def headerMatch (line : String) : Option String :=
  match matchSubroutine line with
  | some n => some n
  | none => matchFunction line

/-- The top-level scan of collect_routines (lines 167-184): the first line
matching the program or module pattern sets the kind and name and stops; a
line that startswith "subroutine" sets kind "flat" (name stays at its None
default); if no line matches, `ftype` is never assigned.  The returned value
is `none` exactly when `ftype` stays unbound. -/
def topScan : List String → Option (String × Option String)
  | [] => none
  | l :: ls =>
    let line := cleanLower l
    match matchProgram line with
    | some n => some ("program", some n)
    | none =>
      match matchModule line with
      | some n => some ("module", some n)
      | none =>
        if "subroutine".data.isPrefixOf line.data then some ("flat", none)
        else topScan ls

/-- The nested generator iter_routines (lines 186-199).  The state carries
the last assigned (routine_name, start) pair: Python keeps those two local
variables across loop iterations, never clearing them after a yield, and
they start out unbound.  A closing line with the state still unbound executes
`yield routine_name, start, i` on unassigned locals, raising NameError. -/
def iterRoutinesAux (state : Option (String × Nat)) (i : Nat) :
    List String → Except PyErr (List (String × Nat × Nat))
  | [] => Except.ok []
  | l :: ls =>
    let line := cleanLower l
    let state2 := match headerMatch line with
      | some n => some (n, i)
      | none => state
    if isEndLine line then
      match state2 with
      | none => Except.error PyErr.nameError
      | some (n, s) =>
        match iterRoutinesAux state2 (i + 1) ls with
        | Except.ok rest => Except.ok ((n, s, i) :: rest)
        | Except.error e => Except.error e
    else iterRoutinesAux state2 (i + 1) ls

def iter_routines (lines : List String) : Except PyErr (List (String × Nat × Nat)) :=
  iterRoutinesAux none 0 lines

/-- collect_routines (lines 155-201), from the list of lines read from the
file.  The return statement `return ftype, fname, list(iter_routines())`
evaluates `ftype` first — NameError when the top scan assigned nothing —
and then forces the whole nested generator. -/
def collect_routines (lines : List String) :
    Except PyErr (String × Option String × List (String × Nat × Nat)) :=
  match topScan lines with
  | none => Except.error PyErr.nameError
  | some (ftype, fname) =>
    match iter_routines lines with
    | Except.ok rs => Except.ok (ftype, fname, rs)
    | Except.error e => Except.error e

/-- follow_flow (follow.py lines 203-212): the body is
`raise Exception("not implemented")` regardless of its arguments. -/
def follow_flow (_routines : String → List String) (_start_routine : String)
    (_line : Nat) : Except PyErr (List String) :=
  Except.error (PyErr.exception "not implemented")

/-! ## The Flow Tracer, modelled from the spec

follow_flow, the repository's tracer, raises `Exception("not implemented")`,
so the tracer and the classifier it drives are modelled from the spec
(sections 4.2, 4.4 and 7).  Definitions below carry `Modelled from the spec`
doc comments and follow the spec's words, not the broken source. -/

/-- Modelled from the spec (section 4.2): the statement is case-normalized
(lowercase) and trimmed before matching. -/
def normStmt (s : String) : String :=
  pyStrip (pyLower s)

/-- Modelled from the spec (section 4.2 rule 1): an identifier character is a
letter, digit, underscore or percent. -/
def identChar (c : Char) : Bool :=
  c.isAlpha || c.isDigit || c = '_' || c = '%'

/-- Modelled from the spec (section 4.2 rule 1): scan the statement for all
substrings of the form `identifier(` whose identifier is a known routine
name, left to right.  `run` holds the identifier characters read so far, in
reverse. -/
def scanCalls (names : List String) : List Char → List Char → List String
  | _, [] => []
  | run, c :: cs =>
    if c = '(' then
      (if !run.isEmpty && names.contains (String.mk run.reverse) then
        [String.mk run.reverse]
      else []) ++ scanCalls names [] cs
    else if identChar c then scanCalls names (c :: run) cs
    else scanCalls names [] cs

/-- Modelled from the spec (section 4.2 rule 4): for a statement starting
with `call `, the callee name is the text after the keyword, trimmed of its
trailing argument list and whitespace. -/
def callTargetName (s : String) : String :=
  pyStrip (String.mk ((s.data.drop 5).takeWhile (fun c => c ≠ '(')))

/-- Modelled from the spec (section 4.2 rule 5): the digits after `goto `. -/
def gotoLabel (s : String) : String :=
  String.mk ((pyStrip (String.mk (s.data.drop 5))).data.takeWhile Char.isDigit)

/-- Modelled from the spec (section 4.2 rule 9): the module name after
`use `. -/
def moduleNameOf (s : String) : String :=
  pyStrip (String.mk (s.data.drop 4))

/-- The event type of the spec's classifier (section 3): a closed tagged
variant.  Each event retains the original-case statement text. -/
inductive STarget
  | call (name : String)
  | goto (label : String)
  | loopControl (leaves : Bool)
  deriving DecidableEq, Repr

inductive SEvent
  | plain (stmt : String)
  | moduleUse (stmt : String) (modname : String)
  | blockStart (stmt : String) (finite : Bool)
  | blockEnd (stmt : String)
  | jump (stmt : String) (target : STarget)
  deriving DecidableEq, Repr

/-- Modelled from the spec (section 4.2, rules 2-9): every matching rule
produces its event, in rule order.  `stmt` is the original statement text,
`s` its lowercased trimmed copy. -/
def primaryEvents (stmt s : String) : List SEvent :=
  (if strStarts s "if" || strStarts s "select case" then
    [SEvent.blockStart stmt true] else []) ++
  (if strStarts s "do" then [SEvent.blockStart stmt false] else []) ++
  (if strStarts s "call " && !(callTargetName s).data.isEmpty then
    [SEvent.jump stmt (STarget.call (callTargetName s))] else []) ++
  (if strStarts s "goto " && !(gotoLabel s).data.isEmpty then
    [SEvent.jump stmt (STarget.goto (gotoLabel s))] else []) ++
  (if s == "end" || strStarts s "end " then [SEvent.blockEnd stmt] else []) ++
  (if strStarts s "cycle" then [SEvent.jump stmt (STarget.loopControl false)] else []) ++
  (if strStarts s "exit" then [SEvent.jump stmt (STarget.loopControl true)] else []) ++
  (if strStarts s "use " && !(moduleNameOf s).data.isEmpty then
    [SEvent.moduleUse stmt (moduleNameOf s)] else [])

/-- Modelled from the spec (section 4.2): classify a statement against the
known routine names.  Embedded call-expression events come first, then the
primary rule events in rule order, then always one PlainStatement fallback.
Known names are taken in canonical lowercase (section 3, RoutineEntry). -/
def classify (stmt : String) (names : List String) : List SEvent :=
  (scanCalls names [] (normStmt stmt).data).map
      (fun n => SEvent.jump stmt (STarget.call n)) ++
    primaryEvents stmt (normStmt stmt) ++ [SEvent.plain stmt]

/-- Modelled from the spec (section 3, TraceState): one open control frame. -/
inductive Frame
  | block (finite : Bool)
  | callFrame (name : String) (returnLine : Option Nat)
  | loop (startLine : Nat)
  deriving DecidableEq, Repr

/-- Modelled from the spec (section 7): the tracer's failure kinds. -/
inductive TraceErr
  | unresolvedCall
  | unresolvedLabel
  | unbalancedBlock
  | routineNotFound
  deriving DecidableEq, Repr

/-- One element of the trace output: a visited statement, or the explicit
failure signal that terminates the sequence (spec section 7). -/
inductive TraceItem
  | stmt (text : String)
  | failure (e : TraceErr)
  deriving DecidableEq, Repr

/-- The routine-lookup capability handed to the tracer: routine name to that
routine's raw lines.  An association list keeps the set of known names
enumerable, as the catalog builder would supply it. -/
abbrev Catalog := List (String × List String)

/-- Modelled from the spec (section 4.1, re-entered per routine): the logical
statement starting at the head of the given line window, with the number of
raw lines it consumes.  Continuation lines are joined; a trailing
continuation-only window still yields its buffer. -/
def reconstructOne : List String → Option (String × Nat)
  | [] => none
  | l :: ls =>
    let line := cleanLine l
    if endsWithAmp line then
      match reconstructOne ls with
      | some (s, k) => some (dropLastChar line ++ s, k + 1)
      | none => some (dropLastChar line, 1)
    else some (line, 1)

/-- Tracer traversal state (spec section 3, TraceState, plus the cursor of
section 4.4): the open frames, innermost first, and the current routine's
name, lines and cursor. -/
structure TState where
  frames : List Frame
  routine : String
  lines : List String
  cursor : Nat
  deriving DecidableEq, Repr

def firstCallFrame : List Frame → Option (String × Option Nat)
  | [] => none
  | Frame.callFrame n r :: _ => some (n, r)
  | _ :: fs => firstCallFrame fs

def findLoop : List Frame → Option Nat
  | [] => none
  | Frame.loop s :: _ => some s
  | _ :: fs => findLoop fs

def removeFirstLoop : List Frame → List Frame
  | [] => []
  | Frame.loop _ :: fs => fs
  | f :: fs => f :: removeFirstLoop fs

/-- Modelled from the spec (section 4.4, exit handling): the loop's closing
line, found by scanning statements after the loop header and balancing block
starts against block ends.  Fuel bounds the scan by the line count. -/
def findLoopEnd (lines : List String) : Nat → Nat → Nat → Option Nat
  | 0, _, _ => none
  | fuel + 1, j, depth =>
    match reconstructOne (lines.drop j) with
    | none => none
    | some (stmtText, k) =>
      let s := normStmt stmtText
      if s == "end" || strStarts s "end " then
        if depth == 0 then some j else findLoopEnd lines fuel (j + k) (depth - 1)
      else if strStarts s "if" || strStarts s "select case" || strStarts s "do" then
        findLoopEnd lines fuel (j + k) (depth + 1)
      else findLoopEnd lines fuel (j + k) depth

/-- Result of applying one statement's events to the traversal state. -/
inductive StepRes
  | next (st : TState)
  | stop
  | fail (e : TraceErr)

/-- Modelled from the spec (section 4.4, Step): process the statement's
non-plain events in classifier order, mutating the state and cursor.
`stmtLine` is the cursor of the statement being processed; the incoming
state's cursor is already advanced past the statement, the default when no
event redirects it.
- BlockStart pushes a Block frame when finite, a Loop frame recording the
  loop header line otherwise (section 3 gives Loop frames their start line).
- BlockEnd pops the innermost frame; popping a CallFrame is routine exit:
  the trace resumes in the caller, at the stored return line + 1, or
  terminates when no caller remains.
- Jump/Call resolves the callee through the catalog — UnresolvedCall when
  absent — and descends to the callee's first line.
- Jump/Goto searches the current routine for a line beginning with the
  label, UnresolvedLabel when absent.
- Jump/LoopControl targets the innermost Loop frame — UnbalancedBlock when
  none — popping it and resuming after the loop's closing line on exit, or
  resuming at the loop's start line on cycle. -/
def applyEvents (cat : Catalog) (stmtLine : Nat) : List SEvent → TState → StepRes
  | [], st => StepRes.next st
  | e :: es, st =>
    match e with
    | SEvent.plain _ => applyEvents cat stmtLine es st
    | SEvent.moduleUse _ _ => applyEvents cat stmtLine es st
    | SEvent.blockStart _ finite =>
      let fr := if finite then Frame.block true else Frame.loop stmtLine
      applyEvents cat stmtLine es { st with frames := fr :: st.frames }
    | SEvent.blockEnd _ =>
      match st.frames with
      | [] => StepRes.fail TraceErr.unbalancedBlock
      | Frame.callFrame _ ret :: fs =>
        match ret with
        | none => StepRes.stop
        | some r =>
          match firstCallFrame fs with
          | none => StepRes.stop
          | some (caller, _) =>
            match cat.lookup caller with
            | none => StepRes.fail TraceErr.routineNotFound
            | some ls =>
              applyEvents cat stmtLine es
                { frames := fs, routine := caller, lines := ls, cursor := r + 1 }
      | _ :: fs => applyEvents cat stmtLine es { st with frames := fs }
    | SEvent.jump _ tgt =>
      match tgt with
      | STarget.call name =>
        match cat.lookup name with
        | none => StepRes.fail TraceErr.unresolvedCall
        | some ls =>
          applyEvents cat stmtLine es
            { frames := Frame.callFrame name (some stmtLine) :: st.frames,
              routine := name, lines := ls, cursor := 0 }
      | STarget.goto label =>
        match st.lines.findIdx? (fun l => label.data.isPrefixOf (cleanLine l).data) with
        | none => StepRes.fail TraceErr.unresolvedLabel
        | some j => applyEvents cat stmtLine es { st with cursor := j }
      | STarget.loopControl leaves =>
        match findLoop st.frames with
        | none => StepRes.fail TraceErr.unbalancedBlock
        | some start =>
          if leaves then
            match findLoopEnd st.lines st.lines.length (start + 1) 0 with
            | none => StepRes.fail TraceErr.unbalancedBlock
            | some endLn =>
              applyEvents cat stmtLine es
                { st with frames := removeFirstLoop st.frames, cursor := endLn + 1 }
          else applyEvents cat stmtLine es { st with cursor := start }

/-- Modelled from the spec (section 4.4): the trace loop.  Each step
reconstructs the statement at the cursor, emits it, and applies its events;
a failure signal ends the sequence right after the statement that caused it.
The trace is unbounded in general, so fuel bounds the number of steps — the
caller-imposed step limit of sections 4.4 and 5. -/
def traceRun (cat : Catalog) : Nat → TState → List TraceItem
  | 0, _ => []
  | fuel + 1, st =>
    match reconstructOne (st.lines.drop st.cursor) with
    | none => []
    | some (stmtText, k) =>
      let events := classify stmtText (cat.map Prod.fst)
      match applyEvents cat st.cursor events { st with cursor := st.cursor + k } with
      | StepRes.next st2 => TraceItem.stmt stmtText :: traceRun cat fuel st2
      | StepRes.stop => [TraceItem.stmt stmtText]
      | StepRes.fail e => [TraceItem.stmt stmtText, TraceItem.failure e]

/-- Modelled from the spec (sections 4.4 and 6): trace from a start routine
and start line; a start routine absent from the catalog is RoutineNotFound
before tracing begins.  The initial state is one CallFrame with no return
line. -/
def trace (cat : Catalog) (startRoutine : String) (startLine : Nat) (fuel : Nat) :
    List TraceItem :=
  match cat.lookup startRoutine with
  | none => [TraceItem.failure TraceErr.routineNotFound]
  | some ls =>
    traceRun cat fuel
      { frames := [Frame.callFrame startRoutine none], routine := startRoutine,
        lines := ls, cursor := startLine }

/-! # Helper lemmas -/

theorem iterStatementsAux_length (content : List String) :
    ∀ buffer, (iterStatementsAux buffer content).length = nonContinuedLineCount content + 1 := by
  induction content with
  | nil =>
    intro buffer
    simp [iterStatementsAux, nonContinuedLineCount]
  | cons l ls ih =>
    intro buffer
    by_cases h : endsWithAmp (cleanLine l) = true
    · simp [iterStatementsAux, nonContinuedLineCount, List.filter_cons, h, ih]
    · have h2 : endsWithAmp (cleanLine l) = false := by simpa using h
      simp [iterStatementsAux, nonContinuedLineCount, List.filter_cons, h2, ih]

/-- A finished run of continuation lines plus its terminating line emits one
statement: the accumulated buffer, the stripped continuation texts and the
terminating line's text, joined. -/
theorem iterStatementsAux_run (cs : List String) (t : String) (rest : List String)
    (hc : ∀ c ∈ cs, endsWithAmp (cleanLine c) = true)
    (ht : endsWithAmp (cleanLine t) = false) :
    ∀ buffer, iterStatementsAux buffer (cs ++ t :: rest) =
      (buffer ++ joinedContinuations cs ++ cleanLine t) :: iterStatementsAux "" rest := by
  induction cs with
  | nil =>
    intro buffer
    simp [iterStatementsAux, ht, joinedContinuations, String.append_empty]
  | cons c cs ih =>
    intro buffer
    have hc1 : endsWithAmp (cleanLine c) = true := hc c (by simp)
    have hcs : ∀ x ∈ cs, endsWithAmp (cleanLine x) = true := fun x hx => hc x (by simp [hx])
    simp only [List.cons_append, iterStatementsAux, hc1, if_true, List.append_eq]
    rw [ih hcs]
    simp [joinedContinuations, String.append_assoc]

/-- A trailing run of continuation lines still emits exactly one statement,
through the final unconditional yield. -/
theorem iterStatementsAux_trailing (cs : List String)
    (hc : ∀ c ∈ cs, endsWithAmp (cleanLine c) = true) :
    ∀ buffer, iterStatementsAux buffer cs = [buffer ++ joinedContinuations cs] := by
  induction cs with
  | nil =>
    intro buffer
    simp [iterStatementsAux, joinedContinuations, String.append_empty]
  | cons c cs ih =>
    intro buffer
    have hc1 : endsWithAmp (cleanLine c) = true := hc c (by simp)
    simp only [iterStatementsAux, hc1, if_true]
    rw [ih (fun x hx => hc x (by simp [hx]))]
    simp [joinedContinuations, String.append_assoc]

theorem dropWhile_shorter {p : Char → Bool} {t : List Char}
    (h : (t.dropWhile p).length < t.length) : ∃ c t2, t = c :: t2 ∧ p c = true := by
  cases t with
  | nil => simp at h
  | cons c t2 =>
    by_cases hp : p c = true
    · exact ⟨c, t2, rfl, hp⟩
    · rw [List.dropWhile_cons, if_neg hp] at h
      exact absurd h (lt_irrefl _)

theorem pyIsSpace_not_fnCls {c : Char} (h : pyIsSpace c = true) : fnCls c = false := by
  have h2 : c = ' ' ∨ c = '\t' ∨ c = '\n' ∨ c = '\r' ∨ c = '\x0b' ∨ c = '\x0c' := by
    simpa [pyIsSpace, or_assoc] using h
  rcases h2 with h2 | h2 | h2 | h2 | h2 | h2 <;> subst h2 <;> decide

/-- A routine-closing line never matches the function-header pattern: after
`end` comes nothing, or whitespace plus exactly `subroutine` or `function`,
and in each case both the prefixed and the unprefixed form of the pattern
fail. -/
theorem matchFunctionData_end (t : List Char) (h : endTail t = true) :
    matchFunctionData ('e' :: 'n' :: 'd' :: t) = none := by
  simp only [endTail, Bool.or_eq_true, Bool.and_eq_true, decide_eq_true_eq,
    List.isEmpty_iff] at h
  rcases h with h | ⟨hlen, hd⟩
  · subst h
    rfl
  · obtain ⟨c, t2, rfl, hc⟩ := dropWhile_shorter hlen
    have hcf : fnCls c = false := pyIsSpace_not_fnCls hc
    have hr1 : ('e' :: 'n' :: 'd' :: c :: t2).dropWhile fnCls = c :: t2 := by
      simp [List.dropWhile_cons, hcf, show fnCls 'e' = true from by decide,
        show fnCls 'n' = true from by decide, show fnCls 'd' = true from by decide]
    have hr2 : (c :: t2).dropWhile pyIsSpace = t2.dropWhile pyIsSpace := by
      simp [List.dropWhile_cons, hc]
    have hd2 : t2.dropWhile pyIsSpace = "subroutine".data ∨
        t2.dropWhile pyIsSpace = "function".data := by
      rw [List.dropWhile_cons, if_pos hc] at hd
      exact hd
    simp only [matchFunctionData, hr1, hr2]
    split
    · rcases hd2 with hd2 | hd2 <;> rw [hd2] <;> rfl
    · rfl

/-- Disjointness of the closing-line pattern from both header patterns: the
NameError of iter_routines cannot be averted by the closing line itself
opening a routine. -/
theorem isEndLine_not_header {s : String} (h : isEndLine s = true) :
    headerMatch s = none := by
  rw [isEndLine, Bool.and_eq_true] at h
  obtain ⟨hp, ht⟩ := h
  rw [List.isPrefixOf_iff_prefix] at hp
  obtain ⟨t, ht2⟩ := hp
  have hdata : s.data = 'e' :: 'n' :: 'd' :: t := ht2.symm
  have h3 : s.data.drop 3 = t := by rw [hdata]; rfl
  rw [h3] at ht
  rw [headerMatch, matchSubroutine, matchFunction, hdata]
  have h1 : matchKeywordName "subroutine".data azCls ('e' :: 'n' :: 'd' :: t) = none := rfl
  rw [h1]
  exact matchFunctionData_end t ht

/-- With no header line seen yet, the iter_routines state is unbound when a
closing line arrives, whatever follows it. -/
theorem iterRoutinesAux_nameError (l : String) (post : List String)
    (hend : isEndLine (cleanLower l) = true) :
    ∀ (pre : List String) (i : Nat), (∀ p ∈ pre, headerMatch (cleanLower p) = none) →
      iterRoutinesAux none i (pre ++ l :: post) = Except.error PyErr.nameError := by
  intro pre
  induction pre with
  | nil =>
    intro i _
    have hh : headerMatch (cleanLower l) = none := isEndLine_not_header hend
    simp [iterRoutinesAux, hh, hend]
  | cons p pre ih =>
    intro i hpre
    have hp : headerMatch (cleanLower p) = none := hpre p (by simp)
    have hrest : ∀ q ∈ pre, headerMatch (cleanLower q) = none :=
      fun q hq => hpre q (by simp [hq])
    by_cases hpe : isEndLine (cleanLower p) = true
    · simp [iterRoutinesAux, hp, hpe]
    · have hpe2 : isEndLine (cleanLower p) = false := by simpa using hpe
      simp only [List.cons_append, iterRoutinesAux, hp, hpe2, if_false]
      exact ih (i + 1) hrest

/-! # Claim theorems -/

/-- C1: the spec claims the classifier is total — for every input string and
known-name set, interpret_statement terminates without error with at least
one plain-statement fallback event.  The code instead raises AttributeError
on every input: its first operation evaluates `re.searchiter`, an attribute
the `re` module does not define, so no event — in particular no fallback
event — is ever yielded.  The claim matches the function's own docstring
("Can yield one or more events"); the code is the slip. -/
theorem C1_interpret_statement_always_raises (statement : String) (func_names : List String) :
    interpret_statement statement func_names = Except.error PyErr.attributeError := rfl

/-- C3 counterexample: on the single line "a" the reconstructor yields two
statements — the line and then the unconditional final yield of the empty
buffer — while the input has exactly one non-continued logical line, and the
empty buffer is emitted although the claim says it is emitted only if
non-empty. -/
theorem C3_counterexample :
    iter_statements ["a"] = ["a", ""] ∧
    (iter_statements ["a"]).length ≠ nonContinuedLineCount ["a"] :=
  ⟨rfl, by decide⟩

/-- C3 amended: after input exhaustion the buffer is always emitted as a
final statement, even when it is empty, so the number of statements yielded
equals the number of non-continued logical lines plus one. -/
theorem C3_statement_count (content : List String) :
    (iter_statements content).length = nonContinuedLineCount content + 1 :=
  iterStatementsAux_length content ""

/-- C4: the spec claims top-level kind detection never fails and that a file
in which no program/module/subroutine line occurs yields FlatRoutines with
name None.  On such a file the code instead raises NameError: `fname` has a
default (`fname = None  # Default`) but `ftype` does not, and the return
statement reads the never-assigned `ftype`. -/
theorem C4_collect_routines_unassigned_ftype :
    collect_routines ["x = 1"] = Except.error PyErr.nameError := rfl

/-- C5: the spec claims a statement starting with `call <name>` yields a
Jump event whose Call target carries the trimmed name.  Evaluated on such a
statement, interpret_statement raises AttributeError at `re.searchiter`
before its `^call ([^(]+)` match is ever attempted, so no Jump event is
produced. -/
theorem C5_call_statement_yields_no_jump :
    interpret_statement "call foo(x)" ["foo"] = Except.error PyErr.attributeError := rfl

/-- C6: the spec claims the classifier matches a lowercased, trimmed copy
while every produced event retains the original-case text.  The code rebinds
`statement = statement.lower().strip()` — so the events its body constructs
would carry the lowercased text, not the original — and then raises
AttributeError before producing any event at all: original-case and
lowercased inputs are indistinguishable in its output. -/
theorem C6_case_lost_before_any_event :
    interpret_statement "CALL FOO" [] = Except.error PyErr.attributeError ∧
    interpret_statement "CALL FOO" [] = interpret_statement "call foo" [] :=
  ⟨rfl, rfl⟩

/-- C7: each raw line is truncated at the first `!` and trimmed; a line
ending in `&` has the marker stripped and is appended to the buffer without
emitting, so a run of consecutive continuation lines composes into exactly
one emitted statement — composed with its terminating line when one
follows (first conjunct), or flushed alone by the final yield when input
ends inside the run (second conjunct). -/
theorem C7_continuation_run_composes (cs : List String) (t : String) (rest : List String)
    (buffer : String)
    (hc : ∀ c ∈ cs, endsWithAmp (cleanLine c) = true)
    (ht : endsWithAmp (cleanLine t) = false) :
    iterStatementsAux buffer (cs ++ t :: rest) =
      (buffer ++ joinedContinuations cs ++ cleanLine t) :: iterStatementsAux "" rest ∧
    iterStatementsAux buffer cs = [buffer ++ joinedContinuations cs] :=
  ⟨iterStatementsAux_run cs t rest hc ht buffer, iterStatementsAux_trailing cs hc buffer⟩

theorem C7_continuation_run_composes_witness :
    (∀ c ∈ ["a &"], endsWithAmp (cleanLine c) = true) ∧
    endsWithAmp (cleanLine "b") = false ∧
    (iterStatementsAux "" (["a &"] ++ "b" :: []) =
      ("" ++ joinedContinuations ["a &"] ++ cleanLine "b") :: iterStatementsAux "" [] ∧
    iterStatementsAux "" ["a &"] = ["" ++ joinedContinuations ["a &"]]) :=
  ⟨by decide, by decide,
    C7_continuation_run_composes ["a &"] "b" [] "" (by decide) (by decide)⟩

/-- C8: in any file where a routine-closing line (`end`, `end subroutine`,
`end function`) appears with no subroutine/function header line before it,
enumerating the routine list of collect_routines raises NameError — the
generator executes `yield routine_name, start, i` with both locals still
unassigned — instead of returning an empty routine list.  (When the top
scan also assigned nothing, the NameError comes from `ftype` instead; the
call still raises NameError rather than returning.) -/
theorem C8_end_before_header_nameError (pre : List String) (l : String) (post : List String)
    (hpre : ∀ p ∈ pre, headerMatch (cleanLower p) = none)
    (hend : isEndLine (cleanLower l) = true) :
    collect_routines (pre ++ l :: post) = Except.error PyErr.nameError := by
  have hiter : iter_routines (pre ++ l :: post) = Except.error PyErr.nameError :=
    iterRoutinesAux_nameError l post hend pre 0 hpre
  unfold collect_routines
  cases htop : topScan (pre ++ l :: post) with
  | none => rfl
  | some v =>
    obtain ⟨ftype, fname⟩ := v
    rw [hiter]

theorem C8_end_before_header_nameError_witness :
    (∀ p ∈ ["program p"], headerMatch (cleanLower p) = none) ∧
    isEndLine (cleanLower "end") = true ∧
    collect_routines (["program p"] ++ "end" :: []) = Except.error PyErr.nameError :=
  ⟨by decide, by decide,
    C8_end_before_header_nameError ["program p"] "end" [] (by decide) (by decide)⟩

/-- C9: EndOfBlock's initializer never calls the base Event initializer, so
an EndOfBlock instance has no statement attribute and Event.__str__ on it
raises AttributeError. -/
theorem C9_endOfBlock_missing_statement (s : String) :
    (EndOfBlock.new (PyVal.str s)).statement = none ∧
    (EndOfBlock.new (PyVal.str s)).toStr = Except.error PyErr.attributeError :=
  ⟨rfl, rfl⟩

/-- C10: LoopJump defines __ini__ rather than __init__, so LoopJump(x) runs
the inherited Event.__init__, which stores x in the statement attribute; no
leave attribute distinguishing cycle from exit is ever set. -/
theorem C10_loopJump_inherits_event_init (x : PyVal) :
    (LoopJump.new x).statement = some x ∧ (LoopJump.new x).leave = none :=
  ⟨rfl, rfl⟩

/-- C2: for every routine lookup in which `unknown_sub` is absent, tracing a
routine whose body reaches `call unknown_sub` emits that statement, signals
UnresolvedCall, and yields zero further trace elements — whatever lines
follow the call and however much fuel remains.  (Spec-modelled tracer:
follow_flow itself raises "not implemented".) -/
theorem C2_unresolved_call_stops_trace (cat : Catalog) (rest : List String) (fuel : Nat)
    (hu : cat.lookup "unknown_sub" = none)
    (hm : cat.lookup "main" = some ("call unknown_sub" :: rest)) :
    trace cat "main" 0 (fuel + 1) =
      [TraceItem.stmt "call unknown_sub", TraceItem.failure TraceErr.unresolvedCall] := by
  have hcl : classify "call unknown_sub" (cat.map Prod.fst) =
      [SEvent.jump "call unknown_sub" (STarget.call "unknown_sub"),
        SEvent.plain "call unknown_sub"] := rfl
  have hrc : reconstructOne (("call unknown_sub" :: rest).drop 0) =
      some ("call unknown_sub", 1) := rfl
  have happ : applyEvents cat 0
      [SEvent.jump "call unknown_sub" (STarget.call "unknown_sub"),
        SEvent.plain "call unknown_sub"]
      { frames := [Frame.callFrame "main" none], routine := "main",
        lines := "call unknown_sub" :: rest, cursor := 0 + 1 } =
      StepRes.fail TraceErr.unresolvedCall := by
    simp only [applyEvents]
    rw [hu]
  unfold trace
  rw [hm]
  simp only [traceRun, hrc, hcl, happ]

theorem C2_unresolved_call_stops_trace_witness :
    ([("main", ["call unknown_sub"])] : Catalog).lookup "unknown_sub" = none ∧
    ([("main", ["call unknown_sub"])] : Catalog).lookup "main" = some ["call unknown_sub"] ∧
    trace [("main", ["call unknown_sub"])] "main" 0 4 =
      [TraceItem.stmt "call unknown_sub", TraceItem.failure TraceErr.unresolvedCall] :=
  ⟨rfl, rfl, C2_unresolved_call_stops_trace [("main", ["call unknown_sub"])] [] 3 rfl rfl⟩

end FR
